import Mathlib

/-!
Verification of the Assetto Corsa suspension-data extractor.

Shallow embedding of the three Python modules:
* `main.py` (`SuspensionDataExtractor`): the circular sample buffer
  (`add_to_buffer` / `get_latest_data`) and the duplicate-suppression step of
  the sampling loop (`start_extraction`);
* `data_logger.py` (`SuspensionDataLogger`): session state, `log_data`,
  `save_session`, `save_realtime`;
* `ac_shared_memory.py` (`ACSharedMemory`): the fixed 368-byte
  `SPageFilePhysics` layout, `read_suspension_data`, `connect`,
  `is_ac_running`.

Machine-level conventions: bytes are `Nat` values taken mod 256, the 32-bit
signed `packetId` is decoded into `Int` with an explicit `2^32` wrap, and the
IEEE-754 single-precision fields are carried as their raw 32-bit patterns
(`Nat`), which is exactly what "bit-identical" talks about.  Wall-clock time
(`time.time()`, `datetime.now()`) is passed explicitly as a `Nat` instant, and
file I/O is an explicit effect: a success flag goes in, the written payloads
come out as a trace.
-/

namespace AC

/-! ### Circular buffer (`main.py`, `SuspensionDataExtractor`)

`self.data_buffer` starts `[]`, `self.buffer_index` starts `0`,
`self.buffer_size` is 1000 in `__init__`; the buffer operations are
parametrised over `buffer_size` here, with the concrete 1000 used where a
claim fixes it. -/

structure BufState (α : Type) where
  data_buffer : List α
  buffer_index : Nat
  deriving DecidableEq

def initBuf (α : Type) : BufState α := ⟨[], 0⟩

/-- `add_to_buffer` (main.py 79–86): append while not yet full, else
overwrite at `buffer_index` and advance the cursor modulo `buffer_size`. -/
def add_to_buffer (buffer_size : Nat) (s : BufState α) (x : α) : BufState α :=
  if s.data_buffer.length < buffer_size then
    { data_buffer := s.data_buffer ++ [x], buffer_index := s.buffer_index }
  else
    { data_buffer := s.data_buffer.set s.buffer_index x,
      buffer_index := (s.buffer_index + 1) % buffer_size }

/-- Python list slice `l[k:]` for an arbitrary integer start `k`
(negative starts count from the end, everything clamped). -/
def pySliceFrom (l : List α) (k : Int) : List α :=
  if 0 ≤ k then l.drop k.toNat
  else l.drop (l.length - min (-k).toNat l.length)

/-- `get_latest_data` (main.py 88–103).  The full-buffer branch folds
`latest_data.insert(0, self.data_buffer[idx])` over `range(count)` with
`idx = (buffer_index - 1 - i) % buffer_size`; Python `%` on a positive
modulus agrees with `Int.emod`, so the `idx >= 0` guard is kept verbatim.
The not-yet-full branch is the slice `data_buffer[-count:]` when
`len(data_buffer) >= count`, else the whole list. -/
def get_latest_data [Inhabited α] (buffer_size : Nat) (s : BufState α)
    (count : Int) : List α :=
  if s.data_buffer.isEmpty then []
  else if s.data_buffer.length < buffer_size then
    if count ≤ (s.data_buffer.length : Int) then pySliceFrom s.data_buffer (-count)
    else s.data_buffer
  else
    (List.range count.toNat).foldl
      (fun (latest_data : List α) (i : Nat) =>
        let idx : Int := ((s.buffer_index : Int) - 1 - (i : Int)) % (buffer_size : Int)
        if 0 ≤ idx then s.data_buffer.getD idx.toNat default :: latest_data
        else latest_data)
      []

/-- State reached by pushing the records of `L` in order into a fresh buffer. -/
def pushAll (buffer_size : Nat) (L : List α) : BufState α :=
  L.foldl (add_to_buffer buffer_size) (initBuf α)

/-- Representation invariant tying a buffer state to the full push history `L`:
before the buffer fills, the list is the history and the cursor is 0; once
full, the cursor stays below capacity and reading the slots from the cursor
around gives the last `C` pushed records in order. -/
def BufRep (C : Nat) (L : List α) (s : BufState α) : Prop :=
  (L.length < C ∧ s.data_buffer = L ∧ s.buffer_index = 0) ∨
  (C ≤ L.length ∧ s.data_buffer.length = C ∧ s.buffer_index < C ∧
    s.data_buffer.drop s.buffer_index ++ s.data_buffer.take s.buffer_index
      = L.drop (L.length - C))

theorem bufRep_step {α : Type} {C : Nat} (hC : 0 < C) {L : List α}
    {s : BufState α} {x : α} (h : BufRep C L s) :
    BufRep C (L ++ [x]) (add_to_buffer C s x) := by
  obtain ⟨db, bi⟩ := s
  rcases h with ⟨hlt, hbuf, hidx⟩ | ⟨hge, hlen, hidx, hrot⟩
  · dsimp only at hbuf hidx
    subst hbuf; subst hidx
    simp only [add_to_buffer]
    rw [if_pos hlt]
    by_cases h2 : db.length + 1 < C
    · exact Or.inl ⟨by simpa using h2, rfl, rfl⟩
    · have hCeq : db.length + 1 = C := by omega
      refine Or.inr ⟨by simp; omega, by simpa using hCeq, hC, ?_⟩
      dsimp only
      have h0 : (db ++ [x]).length - C = 0 := by simp; omega
      rw [h0]
      simp
  · dsimp only at hlen hidx hrot
    simp only [add_to_buffer]
    rw [if_neg (by omega)]
    have hbi : bi < db.length := by omega
    refine Or.inr ⟨by simp; omega, by simpa using hlen, Nat.mod_lt _ hC, ?_⟩
    dsimp only
    have hset : db.set bi x = db.take bi ++ x :: db.drop (bi + 1) :=
      List.set_eq_take_cons_drop x hbi
    have hlenA : (db.take bi).length = bi := by
      simp [List.length_take]; omega
    have hRHS : (L ++ [x]).drop ((L ++ [x]).length - C)
        = db.drop (bi + 1) ++ db.take bi ++ [x] := by
      have h1 : (L ++ [x]).length - C = (L.length - C) + 1 := by simp; omega
      have h2 : L.length - C + 1 ≤ L.length := by omega
      rw [h1, List.drop_append_of_le_length h2]
      have h3 : L.drop (L.length - C + 1) = (L.drop (L.length - C)).drop 1 := by
        rw [List.drop_drop]
      rw [h3, ← hrot]
      have h4 : (db.drop bi ++ db.take bi).drop 1 = db.drop (bi + 1) ++ db.take bi := by
        rw [List.drop_eq_getElem_cons hbi, List.cons_append, List.drop_one,
          List.tail_cons]
      rw [h4, List.append_assoc]
    rw [hRHS]
    by_cases hb : bi + 1 < C
    · have hm : (bi + 1) % C = bi + 1 := Nat.mod_eq_of_lt hb
      rw [hm, hset]
      have hx : db.take bi ++ x :: db.drop (bi + 1)
          = (db.take bi ++ [x]) ++ db.drop (bi + 1) := by simp
      rw [hx]
      have hlx : (db.take bi ++ [x]).length = bi + 1 := by simp [hlenA]
      rw [List.drop_left' hlx, List.take_left' hlx, List.append_assoc]
    · have hbeq : bi + 1 = C := by omega
      have hm : (bi + 1) % C = 0 := by rw [hbeq, Nat.mod_self]
      rw [hm, hset]
      have hdrop : db.drop (bi + 1) = [] := by
        rw [hbeq, ← hlen, List.drop_length]
      simp [hdrop]

theorem bufRep_pushAll {α : Type} {C : Nat} (hC : 0 < C) (L : List α) :
    BufRep C L (pushAll C L) := by
  induction L using List.reverseRecOn with
  | nil => exact Or.inl ⟨hC, rfl, rfl⟩
  | append_singleton M x ih =>
      rw [pushAll, List.foldl_append]
      exact bufRep_step hC ih

theorem foldl_cons_map {β γ : Type} (f : β → γ) :
    ∀ (l : List β) (acc : List γ),
      l.foldl (fun a i => f i :: a) acc = (l.map f).reverse ++ acc
  | [], _ => rfl
  | b :: l, acc => by
      rw [List.foldl_cons, foldl_cons_map f l (f b :: acc), List.map_cons,
        List.reverse_cons, List.append_assoc, List.singleton_append]

/-- On a full buffer, `get_latest_data C` reads the slots in cursor order:
the result is the buffer rotated to start at `buffer_index`. -/
theorem get_latest_full {α : Type} [Inhabited α] {C : Nat} (hC : 0 < C)
    (s : BufState α) (hlen : s.data_buffer.length = C)
    (hidx : s.buffer_index < C) :
    get_latest_data C s (C : Int) =
      s.data_buffer.drop s.buffer_index ++ s.data_buffer.take s.buffer_index := by
  obtain ⟨db, bi⟩ := s
  dsimp only at hlen hidx
  have hne : db.isEmpty = false := by
    cases db
    · simp at hlen; omega
    · rfl
  simp only [get_latest_data]
  rw [if_neg (by simp [hne]), if_neg (by simp [hlen])]
  have hCZ : ((C : Nat) : Int) ≠ 0 := by
    simp; omega
  have hfun : (fun (latest_data : List α) (i : Nat) =>
      if 0 ≤ ((bi : Int) - 1 - (i : Int)) % (C : Int) then
        db.getD ((((bi : Int) - 1 - (i : Int)) % (C : Int)).toNat) default
          :: latest_data
      else latest_data)
      = fun (latest_data : List α) (i : Nat) =>
        db.getD ((((bi : Int) - 1 - (i : Int)) % (C : Int)).toNat) default
          :: latest_data := by
    funext latest_data i
    rw [if_pos (Int.emod_nonneg _ hCZ)]
  simp only [hfun]
  rw [foldl_cons_map, List.append_nil]
  have hrot : db.drop bi ++ db.take bi = db.rotate bi :=
    (List.rotate_eq_drop_append_take (by omega)).symm
  rw [hrot, Int.toNat_ofNat]
  apply List.ext_getElem
  · simp only [List.length_reverse, List.length_map, List.length_range,
      List.length_rotate, hlen]
  · intro j h1 h2
    have hj : j < C := by
      simpa only [List.length_reverse, List.length_map, List.length_range]
        using h1
    rw [List.getElem_reverse, List.getElem_map, List.getElem_range]
    simp only [List.length_map, List.length_range]
    have hcast : ((bi : Int) - 1 - ((C - 1 - j : Nat) : Int))
        = ((bi + j : Nat) : Int) + (C : Int) * (-1) := by
      push_cast
      omega
    rw [hcast, Int.add_mul_emod_self_left]
    have hnatmod : (((bi + j : Nat) : Int) % ((C : Nat) : Int)).toNat
        = (bi + j) % C := by
      rw [← Int.natCast_mod, Int.toNat_natCast]
    rw [hnatmod]
    have hmlt : (bi + j) % C < db.length := by
      rw [hlen]; exact Nat.mod_lt _ hC
    rw [List.getD_eq_getElem db default hmlt, List.getElem_rotate]
    congr 1
    rw [hlen, Nat.add_comm]

/-- `bufInv`: at most `buffer_size` stored samples and the write cursor in
range.  (`0 ≤ buffer_index` is intrinsic to `Nat`.) -/
def bufInv (buffer_size : Nat) (s : BufState α) : Prop :=
  s.data_buffer.length ≤ buffer_size ∧ s.buffer_index < buffer_size

/-- On a full buffer, a non-positive `count` makes `range(count)` empty, so
`get_latest_data` returns the empty list. -/
theorem get_latest_nonpos {α : Type} [Inhabited α] {C : Nat} {n : Int}
    (hC : 0 < C) (s : BufState α) (hlen : s.data_buffer.length = C)
    (hn : n ≤ 0) : get_latest_data C s n = [] := by
  obtain ⟨db, bi⟩ := s
  dsimp only at hlen
  have hne : db.isEmpty = false := by
    rw [List.isEmpty_eq_false]
    intro h; rw [h] at hlen; simp at hlen; omega
  simp only [get_latest_data]
  rw [if_neg (by simp [hne]), if_neg (by simp [hlen]),
    Int.toNat_of_nonpos hn]
  rfl

/-- On a buffer that is not yet full, a `count` larger than the number of
stored records returns the whole `data_buffer`. -/
theorem get_latest_notfull {α : Type} [Inhabited α] {C : Nat} {n : Int}
    (s : BufState α) {L : List α} (hbuf : s.data_buffer = L)
    (hlt : L.length < C) (hn : (L.length : Int) < n) :
    get_latest_data C s n = L := by
  obtain ⟨db, bi⟩ := s
  dsimp only at hbuf
  subst hbuf
  by_cases hL : db = []
  · subst hL
    simp [get_latest_data]
  · have hne : db.isEmpty = false := by simpa [List.isEmpty_eq_false] using hL
    simp only [get_latest_data]
    rw [if_neg (by simp [hne]), if_pos hlt, if_neg (by omega)]

/-- C1: pushing `M ≥ C` records in order into a fresh capacity-`C` buffer and
then calling `get_latest_data C` returns exactly the last `C` pushed records,
oldest of the window first. -/
theorem c1_latest_returns_last_window {α : Type} [Inhabited α] (C : Nat)
    (L : List α) (hC : 0 < C) (hM : C ≤ L.length) :
    get_latest_data C (pushAll C L) (C : Int) = L.drop (L.length - C) := by
  rcases bufRep_pushAll hC L with ⟨h1, _, _⟩ | ⟨_, hlen, hidx, hrot⟩
  · omega
  · rw [get_latest_full hC _ hlen hidx, hrot]

theorem c1_witness :
    0 < 3 ∧ 3 ≤ ([10, 20, 30, 40, 50] : List Nat).length ∧
      get_latest_data 3 (pushAll 3 ([10, 20, 30, 40, 50] : List Nat)) 3
        = [30, 40, 50] := by
  refine ⟨by decide, by decide, ?_⟩
  have h := c1_latest_returns_last_window 3 ([10, 20, 30, 40, 50] : List Nat)
    (by decide) (by decide)
  simpa using h

/-- C2 counterexample: on a capacity-1000 buffer holding one pushed record,
`get_latest_data 0` returns the whole buffer, not the empty list — the Python
slice `data_buffer[-0:]` is `data_buffer[0:]`.  The claim "returns an empty
sequence when n ≤ 0" is false for a non-empty, not-yet-full buffer. -/
theorem c2_counterexample :
    get_latest_data 1000 (pushAll 1000 ([5] : List Nat)) 0 ≠ [] := by decide

/-- C2 amended: `get_latest_data n` is empty when nothing was ever pushed, and
when `n ≤ 0` on a *full* buffer (on a non-empty not-yet-full buffer `n ≤ 0` is
mishandled by the slice, see the counterexample); when fewer than `C` records
have ever been pushed and `n` exceeds that number it returns all pushed
records in order, no padding, no duplicates.  The function is total: every
input is clamped, none rejected. -/
theorem c2_amended_clamping {α : Type} [Inhabited α] (C : Nat) (L : List α)
    (n : Int) (hC : 0 < C) :
    (L = [] → get_latest_data C (pushAll C L) n = []) ∧
    (C ≤ L.length → n ≤ 0 → get_latest_data C (pushAll C L) n = []) ∧
    (L.length < C → (L.length : Int) < n → get_latest_data C (pushAll C L) n = L) := by
  refine ⟨?_, ?_, ?_⟩
  · intro hL
    subst hL
    simp [pushAll, initBuf, get_latest_data]
  · intro hfull hn
    rcases bufRep_pushAll hC L with ⟨h1, _, _⟩ | ⟨_, hlen, _, _⟩
    · omega
    · exact get_latest_nonpos hC _ hlen hn
  · intro hlt hn
    rcases bufRep_pushAll hC L with ⟨_, hbuf, _⟩ | ⟨hge, _, _, _⟩
    · exact get_latest_notfull _ hbuf hlt hn
    · omega

theorem c2_witness :
    get_latest_data 1000 (pushAll 1000 ([] : List Nat)) 5 = [] ∧
    get_latest_data 3 (pushAll 3 ([1, 2, 3] : List Nat)) (-1) = [] ∧
    get_latest_data 3 (pushAll 3 ([1, 2] : List Nat)) 5 = [1, 2] :=
  ⟨(c2_amended_clamping 1000 ([] : List Nat) 5 (by decide)).1 rfl,
    (c2_amended_clamping 3 ([1, 2, 3] : List Nat) (-1) (by decide)).2.1
      (by decide) (by decide),
    (c2_amended_clamping 3 ([1, 2] : List Nat) 5 (by decide)).2.2
      (by decide) (by decide)⟩

/-- C10: the buffer invariant — at most `buffer_size = 1000` stored samples
and write cursor `0 ≤ buffer_index < 1000` — holds initially and is preserved
by every call to `add_to_buffer`. -/
theorem c10_invariant_preserved (α : Type) :
    bufInv 1000 (initBuf α) ∧
      ∀ (s : BufState α) (x : α), bufInv 1000 s →
        bufInv 1000 (add_to_buffer 1000 s x) := by
  constructor
  · exact ⟨by simp [initBuf, bufInv], by simp [initBuf, bufInv]⟩
  · rintro ⟨db, bi⟩ x ⟨h1, h2⟩
    simp only [bufInv] at h1 h2 ⊢
    simp only [add_to_buffer]
    by_cases h : db.length < 1000
    · rw [if_pos h]
      exact ⟨by simp; omega, h2⟩
    · rw [if_neg h]
      exact ⟨by simp [List.length_set]; omega, Nat.mod_lt _ (by norm_num)⟩

theorem c10_witness :
    bufInv 1000 (add_to_buffer 1000 (initBuf Nat) 7) :=
  (c10_invariant_preserved Nat).2 (initBuf Nat) 7
    (c10_invariant_preserved Nat).1

/-! ### Record decoding (`ac_shared_memory.py`, `ACSharedMemory`)

`SPageFilePhysics` is a `_pack_ = 4` ctypes struct of `c_int32`/`c_float`
fields, all 4-byte aligned, so the layout is sequential with no padding:
`packetId` at byte offset 0, `speedKmh` at 28, `suspensionTravel[4]` at
184..200, total size 368 bytes.  `read_suspension_data` copies the block
(`from_buffer_copy`, which raises when the buffer is smaller than the struct;
the `except` branch turns any such failure into `None`) and builds a dict with
a fresh `time.time()` timestamp plus the decoded fields.  Floats are carried
as their raw little-endian 32-bit patterns; `packetId` is a signed 32-bit
integer. -/

def SPageFilePhysics_size : Nat := 368

/-- Decoded telemetry record (the dict built in `read_suspension_data`):
`timestamp` is the consumer clock reading, the four suspension fields and
`speed_kmh` are raw IEEE-754 single bit patterns, `packet_id` the signed
32-bit sequence id. -/
structure TelemetryRecord where
  timestamp : Nat
  front_left : Nat
  front_right : Nat
  rear_left : Nat
  rear_right : Nat
  speed_kmh : Nat
  packet_id : Int
  deriving DecidableEq

/-- Little-endian 32-bit word at byte offset `o` (bytes taken mod 256). -/
def le32 (block : List Nat) (o : Nat) : Nat :=
  block.getD o 0 % 256 + 256 * (block.getD (o + 1) 0 % 256)
    + 65536 * (block.getD (o + 2) 0 % 256)
    + 16777216 * (block.getD (o + 3) 0 % 256)

/-- Signed value of a 32-bit pattern (`c_int32`). -/
def int32 (w : Nat) : Int :=
  if w % 4294967296 < 2147483648 then ((w % 4294967296 : Nat) : Int)
  else ((w % 4294967296 : Nat) : Int) - 4294967296

inductive DecodeError where
  | bufferTooSmall
  deriving DecidableEq

/-- `SPageFilePhysics.from_buffer_copy(data)`: fails when the byte block is
shorter than the struct; otherwise yields the block to read fields from. -/
def from_buffer_copy (block : List Nat) : Except DecodeError (List Nat) :=
  if block.length < SPageFilePhysics_size then
    Except.error DecodeError.bufferTooSmall
  else Except.ok block

/-- `read_suspension_data` (ac_shared_memory.py 100–126), decode part: the
`try` block copies the struct and builds the record; the `except` branch
returns `None`.  `now` is the `time.time()` reading taken inside the call. -/
def read_suspension_data (block : List Nat) (now : Nat) :
    Option TelemetryRecord :=
  match from_buffer_copy block with
  | Except.error _ => none
  | Except.ok data =>
      some { timestamp := now
             front_left := le32 data 184
             front_right := le32 data 188
             rear_left := le32 data 192
             rear_right := le32 data 196
             speed_kmh := le32 data 28
             packet_id := int32 (le32 data 0) }

/-- The block-derived fields of a record: everything except the consumer
timestamp. -/
def payload_fields (r : TelemetryRecord) : Int × Nat × Nat × Nat × Nat × Nat :=
  (r.packet_id, r.front_left, r.front_right, r.rear_left, r.rear_right,
    r.speed_kmh)

set_option maxRecDepth 10000 in
/-- C4 counterexample: two invocations of `read_suspension_data` on the same
368-byte block at different clock readings give records that are not
bit-identical — the `timestamp` field is `time.time()` at call time, not a
function of the block. -/
theorem c4_counterexample :
    read_suspension_data (List.replicate 368 0) 0
      ≠ read_suspension_data (List.replicate 368 0) 1 := by decide

/-- C4 amended: decoding is deterministic in every block-derived field — for
any byte block, any two invocations agree on `packet_id`, the four suspension
patterns and `speed_kmh` bit for bit; only the consumer-assigned `timestamp`
field depends on the invocation time. -/
theorem c4_decode_deterministic_payload (block : List Nat) (t1 t2 : Nat) :
    (read_suspension_data block t1).map payload_fields
      = (read_suspension_data block t2).map payload_fields := by
  by_cases h : block.length < SPageFilePhysics_size <;>
    simp [read_suspension_data, from_buffer_copy, h, payload_fields]

/-- C5: a byte block shorter than the 368-byte struct makes
`from_buffer_copy` fail with a decode error, and `read_suspension_data`
produces no record from it. -/
theorem c5_short_block_fails (block : List Nat) (now : Nat)
    (h : block.length < SPageFilePhysics_size) :
    from_buffer_copy block = Except.error DecodeError.bufferTooSmall ∧
      read_suspension_data block now = none := by
  constructor
  · simp [from_buffer_copy, h]
  · simp [read_suspension_data, from_buffer_copy, h]

theorem c5_witness :
    ([0, 0, 0] : List Nat).length < SPageFilePhysics_size ∧
      (from_buffer_copy [0, 0, 0] = Except.error DecodeError.bufferTooSmall ∧
        read_suspension_data [0, 0, 0] 0 = none) :=
  ⟨by decide, c5_short_block_fails [0, 0, 0] 0 (by decide)⟩

/-! ### Session recorder (`data_logger.py`, `SuspensionDataLogger`)

State: `current_session_file` (a path, keyed here by the session start
instant), `session_data` (the in-memory entry list), `session_start_time`.
File output is an explicit effect: `save_session` takes the success of the
JSON write as a flag `ioOk` and records each successful write's payload in
the ghost trace `writes` (the sequence of file contents written so far), so
"how many flushes happened" is observable.  `datetime` readings are the
explicit `now` arguments. -/

/-- The `data_entry` dict built by `log_data`: the record's fields plus the
derived `readable_time` (an injective rendering of the timestamp, modeled by
the timestamp itself); the nested `suspension`/`context` grouping is
flattened. -/
structure DataEntry where
  timestamp : Nat
  readable_time : Nat
  front_left : Nat
  front_right : Nat
  rear_left : Nat
  rear_right : Nat
  speed_kmh : Nat
  packet_id : Int
  deriving DecidableEq

def data_entry (r : TelemetryRecord) : DataEntry :=
  { timestamp := r.timestamp
    readable_time := r.timestamp
    front_left := r.front_left
    front_right := r.front_right
    rear_left := r.rear_left
    rear_right := r.rear_right
    speed_kmh := r.speed_kmh
    packet_id := r.packet_id }

structure LoggerState where
  current_session_file : Option Nat
  session_data : List DataEntry
  session_start_time : Option Nat
  writes : List (List DataEntry)
  deriving DecidableEq

/-- `__init__` (data_logger.py 15–23): no session open, empty entry list. -/
def loggerInit : LoggerState :=
  { current_session_file := none
    session_data := []
    session_start_time := none
    writes := [] }

/-- `start_session` (data_logger.py 26–37): timestamp-derived file target,
fresh empty entry list; returns the file handle. -/
def start_session (now : Nat) (st : LoggerState) : Nat × LoggerState :=
  (now,
    { current_session_file := some now
      session_data := []
      session_start_time := some now
      writes := st.writes })

/-- `log_data` (data_logger.py 39–64): `None` input returns `False`;
otherwise one `data_entry` is appended to `session_data` and `True` is
returned.  There is no check that a session is open. -/
def log_data (suspension_data : Option TelemetryRecord) (st : LoggerState) :
    Bool × LoggerState :=
  match suspension_data with
  | none => (false, st)
  | some r =>
      (true, { st with session_data := st.session_data ++ [data_entry r] })

/-- `save_session` (data_logger.py 66–95): returns `False` when there is no
data or no session file; otherwise attempts the JSON write — on success
(`ioOk`) the file contents are recorded in the `writes` trace and `True` is
returned, on I/O failure the `except` branch reports and returns `False`.
`session_data` is never modified. -/
def save_session (ioOk : Bool) (st : LoggerState) : Bool × LoggerState :=
  if st.session_data = [] ∨ st.current_session_file = none then (false, st)
  else if ioOk then (true, { st with writes := st.writes ++ [st.session_data] })
  else (false, st)

/-- `save_realtime` (data_logger.py 97–107): auto-start a session if none is
open, append via `log_data`, and flush via `save_session` whenever the entry
count is a multiple of 100 (the literal in the source). -/
def save_realtime (ioOk : Bool) (now : Nat) (suspension_data : Option TelemetryRecord)
    (st : LoggerState) : LoggerState :=
  let st1 := if st.current_session_file = none then (start_session now st).2 else st
  let p := log_data suspension_data st1
  if p.1 then
    if p.2.session_data.length % 100 = 0 then (save_session ioOk p.2).2
    else p.2
  else p.2

/-- A fixed concrete record for concrete evaluations. -/
def sampleRec : TelemetryRecord :=
  { timestamp := 0, front_left := 0, front_right := 0, rear_left := 0
    rear_right := 0, speed_kmh := 0, packet_id := 0 }

/-- `k` successive `save_realtime` calls (all writes succeeding) from a fresh
logger. -/
def save_realtime_iter (k : Nat) : LoggerState :=
  (List.range k).foldl (fun st _ => save_realtime true 0 (some sampleRec) st)
    loggerInit

/-- C6 counterexample: with no session open (`loggerInit`), `log_data` on a
non-`None` record does *not* return false-and-append-nothing — it appends the
entry and returns `True`; the source has no open-session check. -/
theorem c6_counterexample :
    ¬ ((log_data (some sampleRec) loggerInit).1 = false ∧
        (log_data (some sampleRec) loggerInit).2.session_data
          = loggerInit.session_data) := by decide

/-- C6 amended: `log_data` returns `False` and appends nothing exactly when
the record is `None`; for any non-`None` record it appends one entry and
returns `True`, whether or not a session is open.  It is total (never
raises), so recording cannot interrupt the sampling loop. -/
theorem c6_amended_log_data (st : LoggerState) (r : TelemetryRecord) :
    log_data none st = (false, st) ∧
      log_data (some r) st
        = (true, { st with session_data := st.session_data ++ [data_entry r] }) :=
  ⟨rfl, rfl⟩

/-- C8: when the flush's file write fails, `save_session` reports the failure
by returning `False` and leaves the whole logger state — in particular the
accumulated `session_data` and the trace of completed writes — unchanged: the
entries are retained for a later flush and no automatic retry happens. -/
theorem c8_failed_flush_retains_data (st : LoggerState) :
    save_session false st = (false, st) := by
  by_cases h : st.session_data = [] ∨ st.current_session_file = none <;>
    simp [save_session, h]

set_option maxRecDepth 8000 in
/-- C7 counterexample: the flush interval is the literal 100 in the source —
there is no configurable `K` — so five `save_realtime` calls perform no
automatic flush at all, not the two flushes the claim's `K = 2` scenario
expects. -/
theorem c7_counterexample :
    ¬ ((save_realtime_iter 5).writes.length = 2) := by decide

set_option maxRecDepth 100000 in
/-- C7 amended: `save_realtime` auto-flushes exactly when the entry count
after appending is a multiple of the fixed interval 100 (not configurable):
with an open session, one call adds a file write exactly when
`(len + 1) % 100 = 0`; from a fresh logger, 99 calls produce no flush, 100
produce one, 200 produce two (after the 100th and 200th calls).  The sampling
loop's logging path calls `log_data` directly, which never flushes. -/
theorem c7_amended_autoflush_every_100 :
    (∀ (st : LoggerState) (r : TelemetryRecord) (now f : Nat),
        st.current_session_file = some f →
        (save_realtime true now (some r) st).writes.length
          = (if (st.session_data.length + 1) % 100 = 0
              then st.writes.length + 1 else st.writes.length)) ∧
    (save_realtime_iter 99).writes.length = 0 ∧
    (save_realtime_iter 100).writes.length = 1 ∧
    (save_realtime_iter 200).writes.length = 2 ∧
    (∀ (st : LoggerState) (r : TelemetryRecord),
        (log_data (some r) st).2.writes = st.writes) := by
  refine ⟨?_, by decide, by decide, by decide, fun st r => rfl⟩
  intro st r now f hf
  by_cases hm : (st.session_data.length + 1) % 100 = 0
  · simp [save_realtime, log_data, save_session, hf, hm]
  · simp [save_realtime, log_data, hf, hm]

theorem c7_witness :
    (save_realtime true 0 (some sampleRec) (start_session 0 loggerInit).2).writes.length
      = (if ((start_session 0 loggerInit).2.session_data.length + 1) % 100 = 0
          then (start_session 0 loggerInit).2.writes.length + 1
          else (start_session 0 loggerInit).2.writes.length) :=
  c7_amended_autoflush_every_100.1 (start_session 0 loggerInit).2 sampleRec 0 0 rfl

/-! ### Sampling loop body (`main.py`, `start_extraction` 128–147)

Per-iteration state: the circular buffer, the logger, `sample_count` and
`last_packet_id` (initially 0).  One iteration's handling of a decoded read
result is `process_sample`; timing, printing and statistics do not touch this
state. -/

structure LoopState where
  buf : BufState TelemetryRecord
  logger : LoggerState
  sample_count : Nat
  last_packet_id : Int
  deriving DecidableEq

def loopInit : LoopState :=
  { buf := initBuf TelemetryRecord
    logger := loggerInit
    sample_count := 0
    last_packet_id := 0 }

/-- One iteration of the sampling loop on a read result (main.py 134–147): a
missing record only warns; a record is accepted only when
`packet_id != last_packet_id and packet_id > 0`, in which case it is pushed
to the buffer, forwarded to `log_data` when logging is enabled, the counter
incremented and `last_packet_id` updated; otherwise nothing changes. -/
def process_sample (buffer_size : Nat) (enable_logging : Bool) (s : LoopState)
    (suspension_data : Option TelemetryRecord) : LoopState :=
  match suspension_data with
  | none => s
  | some d =>
      if d.packet_id ≠ s.last_packet_id ∧ 0 < d.packet_id then
        { buf := add_to_buffer buffer_size s.buf d
          logger := if enable_logging then (log_data (some d) s.logger).2
                    else s.logger
          sample_count := s.sample_count + 1
          last_packet_id := d.packet_id }
      else s

/-- A record with the given sequence id (other fields fixed). -/
def mkIdRec (i : Int) : TelemetryRecord :=
  { timestamp := 0, front_left := 0, front_right := 0, rear_left := 0
    rear_right := 0, speed_kmh := 0, packet_id := i }

/-- C3: a decoded record whose sequence id equals the last accepted one, or
is zero, is discarded — buffer, session and accepted counter all unchanged —
and feeding decoded ids `[0,0,5,5,6,7,7]` from a fresh loop accepts exactly
the records with ids 5, 6, 7 in that order, with 3 accepted samples. -/
theorem c3_duplicate_suppression :
    (∀ (buffer_size : Nat) (enable_logging : Bool) (s : LoopState)
        (d : TelemetryRecord),
        d.packet_id = s.last_packet_id ∨ d.packet_id = 0 →
        process_sample buffer_size enable_logging s (some d) = s) ∧
    ((([0, 0, 5, 5, 6, 7, 7] : List Int).map mkIdRec).foldl
          (fun s d => process_sample 1000 true s (some d)) loopInit).buf.data_buffer
        = [mkIdRec 5, mkIdRec 6, mkIdRec 7] ∧
    ((([0, 0, 5, 5, 6, 7, 7] : List Int).map mkIdRec).foldl
          (fun s d => process_sample 1000 true s (some d)) loopInit).logger.session_data
        = [data_entry (mkIdRec 5), data_entry (mkIdRec 6), data_entry (mkIdRec 7)] ∧
    ((([0, 0, 5, 5, 6, 7, 7] : List Int).map mkIdRec).foldl
          (fun s d => process_sample 1000 true s (some d)) loopInit).sample_count
        = 3 := by
  refine ⟨?_, by decide, by decide, by decide⟩
  intro buffer_size enable_logging s d h
  have hcond : ¬ (d.packet_id ≠ s.last_packet_id ∧ 0 < d.packet_id) := by
    rintro ⟨h1, h2⟩
    rcases h with h | h
    · exact h1 h
    · omega
  simp only [process_sample]
  rw [if_neg hcond]

theorem c3_witness :
    process_sample 1000 true loopInit (some (mkIdRec 0)) = loopInit :=
  c3_duplicate_suppression.1 1000 true loopInit (mkIdRec 0) (Or.inr rfl)

/-! ### Shared memory connection (`ac_shared_memory.py`, `ACSharedMemory`) -/

structure ACMemState where
  physics_mmap : Option (List Nat)
  is_connected : Bool
  deriving DecidableEq

def acMemInit : ACMemState := { physics_mmap := none, is_connected := false }

/-- Environment of one `connect` attempt. `mmap_result` is the outcome of the
OS call `mmap.mmap(-1, sizeof(SPageFilePhysics), "acpmf_physics")`: `some
block` when a mapping with contents `block` was established, `none` when the
call raised. -/
structure MmapEnv where
  region_preexists : Bool
  mmap_result : Option (List Nat)
  deriving DecidableEq

/-- Modelled from the spec: the OS-level behaviour of the named shared-memory
open is outside this repository; per the spec's MemorySource contract (§4.2),
when the named region does not pre-exist (the producing process is not
running) the mapping attempt fails, i.e. the call raises. -/
def regionContract (e : MmapEnv) : Prop :=
  e.region_preexists = false → e.mmap_result = none

/-- `connect` (ac_shared_memory.py 78–90): store the mapping and set
`is_connected` on success; the `except` branch sets `is_connected = False`
and returns `False` (the old mapping attribute is left as it was). -/
def connect (e : MmapEnv) (st : ACMemState) : Bool × ACMemState :=
  match e.mmap_result with
  | some block => (true, { physics_mmap := some block, is_connected := true })
  | none => (false, { st with is_connected := false })

/-- The connection guard of `read_suspension_data` (lines 102–103) around the
decode step: `None` unless connected with a mapping in hand. -/
def read_current (st : ACMemState) (now : Nat) : Option TelemetryRecord :=
  if st.is_connected then
    match st.physics_mmap with
    | some block => read_suspension_data block now
    | none => none
  else none

/-- `is_ac_running` (lines 128–135): a read that yields a record with
`packet_id > 0`. -/
def is_ac_running (st : ACMemState) (now : Nat) : Bool :=
  match read_current st now with
  | none => false
  | some d => decide (0 < d.packet_id)

/-- `connect_to_ac` (main.py 61–77): `connect` then `is_ac_running`. -/
def connect_to_ac (e : MmapEnv) (st : ACMemState) (now : Nat) :
    Bool × ACMemState :=
  match connect e st with
  | (true, st1) => (is_ac_running st1 now, st1)
  | (false, st1) => (false, st1)

/-- `start_extraction` (main.py 105–108) enters the sampling loop only when
`connect_to_ac` returns success; otherwise it returns `False` at once. -/
def start_extraction_enters_sampling (e : MmapEnv) (st : ACMemState)
    (now : Nat) : Bool :=
  (connect_to_ac e st now).1

/-- C9: when the named region does not pre-exist, the mapping attempt fails
(spec-modelled OS contract), so `connect` reports failure with
`is_connected = False`, and `start_extraction` never enters the sampling
loop. -/
theorem c9_absent_region_never_samples (e : MmapEnv) (st : ACMemState)
    (now : Nat) (hc : regionContract e)
    (habs : e.region_preexists = false) :
    connect e st = (false, { st with is_connected := false }) ∧
      start_extraction_enters_sampling e st now = false := by
  have h := hc habs
  constructor
  · simp [connect, h]
  · simp [start_extraction_enters_sampling, connect_to_ac, connect, h]

theorem c9_witness :
    connect ⟨false, none⟩ acMemInit
        = (false, { acMemInit with is_connected := false }) ∧
      start_extraction_enters_sampling ⟨false, none⟩ acMemInit 0 = false :=
  c9_absent_region_never_samples ⟨false, none⟩ acMemInit 0 (fun _ => rfl) rfl

end AC
